import Mathlib

/-
Verification of the PDF question-answering orchestrator
(`PDFQASystem` in `Build_a_PDF_powered_QA_system.ipynb`).

The class sequences four external collaborators: a PDF text extractor
(PyPDF2), a text chunker (RecursiveCharacterTextSplitter), an embedding
provider plus vector index (HuggingFaceEmbeddings / FAISS), and a hosted
language model (ChatGroq behind a RetrievalQA chain).  The external
collaborators are modelled as an oracle environment `Env`; the class body
itself is translated statement by statement.  Python exceptions are
modelled with `Except String`; a caught exception turns into the printed
message and the `None` / `False` return value the source produces.
-/

namespace PdfQa

/-! ## Chunker

Modelled from the spec: the chunker used by the source is the external
`RecursiveCharacterTextSplitter`, whose code is not part of this
repository.  The spec describes the reference chunker as follows: given
raw text, a target chunk length `L` and an overlap `O` with `0 ≤ O < L`,
it emits a finite sequence of chunks such that each chunk after the first
starts `O` characters before the previous chunk's end, and the final
chunk may be shorter than `L`; empty input text produces an empty chunk
sequence. -/

/-- Modelled from the spec: sliding-window chunking of a character list.
Each chunk has length `L`; the next chunk starts `O` characters before the
previous chunk's end (step `L - O`); the final chunk may be shorter; the
empty text yields no chunks.  The `L ≤ O` branch is outside the spec's
precondition `0 ≤ O < L` and exists only to make the recursion total. -/
def chunkList (L O : Nat) (s : List Char) : List (List Char) :=
  if h : s.length ≤ L ∨ L ≤ O then
    if s = [] then [] else [s]
  else
    s.take L :: chunkList L O (s.drop (L - O))
termination_by s.length
decreasing_by
  simp only [not_or, not_le] at h
  have h1 : L < s.length := h.1
  have h2 : O < L := h.2
  have hpos : 0 < L - O := Nat.sub_pos_of_lt h2
  have : (s.drop (L - O)).length = s.length - (L - O) := List.length_drop ..
  simp only [this]
  exact Nat.sub_lt (Nat.lt_of_le_of_lt (Nat.zero_le _) h1) hpos

/-- Reassemble a chunk sequence by removing the overlaps: the first chunk
is kept whole and every later chunk contributes everything after its first
`O` characters. -/
def dropOverlap (O : Nat) : List (List Char) → List Char
  | [] => []
  | c :: rest => c ++ (rest.map (List.drop O)).flatten

/-- `self.text_splitter.split_text(text)` at the string level, with the
chunker modelled from the spec. -/
def split_text (L O : Nat) (t : String) : List String :=
  (chunkList L O t.data).map String.mk

/-- Reassembly at the string level: first chunk whole, each later chunk
with its first `O` characters (the overlap) removed. -/
def reassemble (O : Nat) (chunks : List String) : String :=
  String.mk (dropOverlap O (chunks.map String.data))

/-- Dropping `O` characters from every chunk (the first included) and
concatenating yields the input minus its first `O` characters. -/
lemma flatten_map_drop_chunkList (L O : Nat) (hOL : O < L) :
    ∀ n (s : List Char), s.length ≤ n →
      ((chunkList L O s).map (List.drop O)).flatten = s.drop O := by
  intro n
  induction n with
  | zero =>
      intro s hs
      have hnil : s = [] := List.length_eq_zero.mp (Nat.le_zero.mp hs)
      subst hnil
      simp [chunkList]
  | succ n ih =>
      intro s hs
      by_cases hbase : s.length ≤ L ∨ L ≤ O
      · rw [chunkList, dif_pos hbase]
        by_cases hnil : s = []
        · subst hnil; simp
        · simp [hnil]
      · rw [chunkList, dif_neg hbase]
        simp only [not_or, not_le] at hbase
        have hLs : L < s.length := hbase.1
        have hstep : 0 < L - O := Nat.sub_pos_of_lt hOL
        have hlen : (s.drop (L - O)).length ≤ n := by
          have : (s.drop (L - O)).length = s.length - (L - O) := List.length_drop ..
          omega
        have ihtail := ih (s.drop (L - O)) hlen
        simp only [List.map_cons, List.flatten_cons, ihtail]
        have hdd : (s.drop (L - O)).drop O = s.drop L := by
          rw [List.drop_drop]
          congr 1
          omega
        have hdt : (s.take L).drop O = (s.drop O).take (L - O) := List.drop_take ..
        rw [hdd, hdt]
        have hLO : s.drop L = (s.drop O).drop (L - O) := by
          rw [List.drop_drop]
          congr 1
          omega
        rw [hLO]
        exact List.take_append_drop _ _

/-- Round trip at the character-list level: chunking then removing the
overlaps reproduces the input. -/
lemma dropOverlap_chunkList (L O : Nat) (hOL : O < L) (s : List Char) :
    dropOverlap O (chunkList L O s) = s := by
  by_cases hbase : s.length ≤ L ∨ L ≤ O
  · rw [chunkList, dif_pos hbase]
    by_cases hnil : s = []
    · subst hnil; simp [dropOverlap]
    · simp [hnil, dropOverlap]
  · rw [chunkList, dif_neg hbase]
    simp only [not_or, not_le] at hbase
    have hLs : L < s.length := hbase.1
    rw [dropOverlap]
    have htail :=
      flatten_map_drop_chunkList L O hOL (s.drop (L - O)).length (s.drop (L - O)) le_rfl
    rw [htail]
    have hdd : (s.drop (L - O)).drop O = s.drop L := by
      rw [List.drop_drop]
      congr 1
      omega
    rw [hdd]
    exact List.take_append_drop _ _

/-! ## Data model of the orchestrator -/

/-- The FAISS vector store built by `FAISS.from_texts`: it owns the chunk
texts handed to it (embeddings are opaque to the orchestrator and carry no
information the claims need beyond the stored texts). -/
structure VectorStore where
  texts : List String
deriving Repr, DecidableEq

/-- The `RetrievalQA` chain built by `RetrievalQA.from_chain_type`: it
holds the retriever (over the vector store) with its `search_kwargs` count
`k`, and the configured model name. -/
structure QAChain where
  store : VectorStore
  k : Nat
  model : String
deriving Repr, DecidableEq

/-- The fields of a `PDFQASystem` instance, exactly those assigned in
`__init__` (the embeddings and splitter objects are stateless collaborators
determined by `chunk_size` and `chunk_overlap` and are not repeated here). -/
structure PDFQASystem where
  pdf_path : String
  chunk_size : Nat
  chunk_overlap : Nat
  groq_api_key : Option String
  vector_store : Option VectorStore
  qa_chain : Option QAChain
deriving Repr, DecidableEq

/-- Default of the `chunk_size` parameter of `__init__`. -/
def defaultChunkSize : Nat := 1000

/-- Default of the `chunk_overlap` parameter of `__init__`. -/
def defaultChunkOverlap : Nat := 200

/-- The `k` passed as `search_kwargs` to the retriever in the QA chain. -/
def retrieverK : Nat := 3

/-- The model name passed to `ChatGroq`. -/
def groqModelName : String := "llama-3.3-70b-versatile"

/-- `PDFQASystem.__init__` with every parameter explicit: stores the
arguments and leaves `vector_store` and `qa_chain` as `None`. -/
def PDFQASystem.init (pdf_path : String) (chunk_size chunk_overlap : Nat)
    (groq_api_key : Option String) : PDFQASystem :=
  { pdf_path := pdf_path
    chunk_size := chunk_size
    chunk_overlap := chunk_overlap
    groq_api_key := groq_api_key
    vector_store := none
    qa_chain := none }

/-- `PDFQASystem(pdf_path)` with the defaulted parameters left at their
defaults (`chunk_size=1000`, `chunk_overlap=200`, `groq_api_key=None`). -/
def PDFQASystem.mkDefault (pdf_path : String) : PDFQASystem :=
  PDFQASystem.init pdf_path defaultChunkSize defaultChunkOverlap none

/-- The external collaborators, as oracles.  `Except.error` models a
raised Python exception carrying its message. -/
structure Env where
  readPdf : String → Except String String
  envGroqKey : Option String
  chatGroq : String → Except String Unit
  chainRun : QAChain → String → Except String String

/-- Python truthiness test `not x` for an optional string: `None` and the
empty string are falsy. -/
def pyFalsyStr : Option String → Bool
  | none => true
  | some t => t = ""

/-! ## Printed error messages of the source -/

/-- Message printed by `extract_text_from_pdf` on a caught exception. -/
def msgErrorReadingPdf (e : String) : String := "Error reading PDF: " ++ e

/-- Message printed when `initialize_qa_chain` is called before the vector
store exists. -/
def msgVectorStoreMissing : String :=
  "Vector store not initialized. Run create_vector_store first."

/-- Message of the `ValueError` raised when no Groq API key is found. -/
def msgKeyNotFound : String :=
  "GROQ_API_KEY not found. Set the environment variable or pass groq_api_key to PDFQASystem."

/-- Message printed by `initialize_qa_chain` on a caught exception while
building the LLM handle. -/
def msgErrorInitGroq (e : String) : String := "Error initializing Groq LLM: " ++ e

/-- Message printed by `query` when the QA chain is absent. -/
def msgChainMissing : String :=
  "QA chain not initialized. Run initialize_qa_chain first."

/-- Message printed by `query` on a caught exception from the chain. -/
def msgErrorQuery (e : String) : String := "Error processing query: " ++ e

/-! ## Methods -/

/-- `extract_text_from_pdf`: the whole body is inside `try/except`, so the
method always returns normally — the page text on success, `None` (plus a
printed message) when PyPDF2 raises. -/
def extract_text_from_pdf (env : Env) (s : PDFQASystem) :
    Option String × List String :=
  match env.readPdf s.pdf_path with
  | .ok text => (some text, [])
  | .error e => (none, [msgErrorReadingPdf e])

/-- `create_vector_store`: extracts the text, returns `False` when the
text is `None` or empty (`if not text`), otherwise splits it and builds the
FAISS store from the chunks, returning `True`.  Result: the updated
instance, the boolean return value and the printed lines. -/
def create_vector_store (env : Env) (s : PDFQASystem) :
    PDFQASystem × Bool × List String :=
  match extract_text_from_pdf env s with
  | (text, out) =>
    if pyFalsyStr text then (s, false, out)
    else
      let texts := split_text s.chunk_size s.chunk_overlap (text.getD "")
      ({ s with vector_store := some ⟨texts⟩ }, true, out)

/-- The credential actually used:
`self.groq_api_key or os.environ.get("GROQ_API_KEY")` — Python `or`
falls through to the environment lookup when the stored key is `None` or
the empty string. -/
def effective_api_key (env : Env) (s : PDFQASystem) : Option String :=
  match s.groq_api_key with
  | some k => if k = "" then env.envGroqKey else some k
  | none => env.envGroqKey

/-- `initialize_qa_chain` (with the evident `try:` intended at the
malformed `try` line): fails early when the vector store is absent; inside
the `try`, resolves the credential, raises `ValueError` when it is falsy,
then builds the `ChatGroq` handle — any exception there is caught, printed
and turned into `False` with the instance untouched; on success the
`RetrievalQA` chain with a top-3 retriever is stored and `True` returned. -/
def initialize_qa_chain (env : Env) (s : PDFQASystem) :
    PDFQASystem × Bool × List String :=
  match s.vector_store with
  | none => (s, false, [msgVectorStoreMissing])
  | some vs =>
    let key := effective_api_key env s
    if pyFalsyStr key then
      (s, false, [msgErrorInitGroq msgKeyNotFound])
    else
      match env.chatGroq (key.getD "") with
      | .error e => (s, false, [msgErrorInitGroq e])
      | .ok _ =>
        ({ s with qa_chain := some ⟨vs, retrieverK, groqModelName⟩ }, true, [])

/-- The observable outcome of one `query` call: the instance afterwards,
the returned value (`some answer` or `None`), the printed lines, and
whether `self.qa_chain.run` was invoked at all. -/
structure QueryOutcome where
  state : PDFQASystem
  ret : Option String
  printed : List String
  invoked : Bool
deriving Repr, DecidableEq

/-- Python `try body except Exception as e: handler(e)`. -/
def pyTry {α : Type} (body : Except String α) (handler : String → Except String α) :
    Except String α :=
  match body with
  | .ok a => .ok a
  | .error e => handler e

/-- `query`: returns `None` (with a printed message, the chain never
invoked) when `self.qa_chain is None`; otherwise runs the chain inside
`try/except`, returning the chain's response verbatim on success and
`None` plus a printed message on a caught exception.  The outer
`Except` is the method's own exceptional exit: an `Except.error` result
would mean an exception escaping to the caller. -/
def query (env : Env) (s : PDFQASystem) (question : String) :
    Except String QueryOutcome :=
  match s.qa_chain with
  | none => .ok ⟨s, none, [msgChainMissing], false⟩
  | some c =>
    pyTry
      (do
        let r ← env.chainRun c question
        pure ⟨s, some r, [], true⟩)
      (fun e => .ok ⟨s, none, [msgErrorQuery e], true⟩)

/-- Run a sequence of `query` calls, threading the instance; an exception
escaping a call would abort the sequence. -/
def runQueries (env : Env) (s : PDFQASystem) : List String → PDFQASystem
  | [] => s
  | q :: qs =>
    match query env s q with
    | .ok out => runQueries env out.state qs
    | .error _ => s

/-- `query` always returns normally and never changes the instance. -/
lemma query_ok (env : Env) (s : PDFQASystem) (q : String) :
    ∃ out : QueryOutcome, query env s q = .ok out ∧ out.state = s := by
  unfold query
  match hc : s.qa_chain with
  | none => exact ⟨⟨s, none, [msgChainMissing], false⟩, rfl, rfl⟩
  | some c =>
    unfold pyTry
    match hr : env.chainRun c q with
    | .ok r =>
      exact ⟨⟨s, some r, [], true⟩, by simp [hr, Bind.bind, Except.bind, pure, Except.pure], rfl⟩
    | .error e =>
      exact ⟨⟨s, none, [msgErrorQuery e], true⟩, by simp [hr, Bind.bind, Except.bind], rfl⟩

/-! ## Concrete fixtures for witnesses -/

/-- A small vector store over one chunk. -/
def demoStore : VectorStore := ⟨["machine translation"]⟩

/-- The QA chain built from `demoStore` as `initialize_qa_chain` builds it. -/
def demoChain : QAChain := ⟨demoStore, retrieverK, groqModelName⟩

/-- A healthy environment: readable PDF, key in the environment, working
model, chain answering every question. -/
def demoEnv : Env :=
  ⟨fun _ => .ok "machine translation", some "gsk-demo", fun _ => .ok (),
   fun _ q => .ok ("A:" ++ q)⟩

/-- An environment whose PDF extracts to the empty string. -/
def emptyPdfEnv : Env :=
  ⟨fun _ => .ok "", some "gsk-demo", fun _ => .ok (), fun _ _ => .ok "A"⟩

/-- An environment whose PDF extraction raises. -/
def brokenPdfEnv : Env :=
  ⟨fun _ => .error "EOF marker not found", some "gsk-demo", fun _ => .ok (),
   fun _ _ => .ok "A"⟩

/-- An environment with no `GROQ_API_KEY` set. -/
def noKeyEnv : Env :=
  ⟨fun _ => .ok "machine translation", none, fun _ => .ok (), fun _ _ => .ok "A"⟩

/-- An environment whose chain raises on every question. -/
def failingChainEnv : Env :=
  ⟨fun _ => .ok "machine translation", some "gsk-demo", fun _ => .ok (),
   fun _ _ => .error "rate limit"⟩

/-- A freshly constructed instance (state `Uninitialized`). -/
def sUninit : PDFQASystem := PDFQASystem.mkDefault "doc.pdf"

/-- An instance in state `IndexBuilt`: vector store present, chain absent. -/
def sIndexBuilt : PDFQASystem := { sUninit with vector_store := some demoStore }

/-- An instance in state `Ready`: vector store and chain both present. -/
def sReady : PDFQASystem := { sIndexBuilt with qa_chain := some demoChain }

/-- An `IndexBuilt` instance whose constructor credential is the empty
string. -/
def sEmptyKey : PDFQASystem := { sIndexBuilt with groq_api_key := some "" }

/-! ## Claim theorems -/

/-- C1: for every question, calling `query` on an orchestrator whose QA
chain has not been initialized (not `Ready`) returns the precondition
failure — the printed precondition message and `None` — with the instance
unchanged and the chain never invoked (no retrieval, no generation). -/
theorem query_before_ready_fails (env : Env) (s : PDFQASystem) (q : String)
    (h : s.qa_chain = none) :
    query env s q = .ok ⟨s, none, [msgChainMissing], false⟩ := by
  unfold query
  rw [h]

/-- Witness for C1 at a concrete non-Ready instance. -/
theorem query_before_ready_fails_witness :
    query demoEnv sUninit "What is MT" =
      .ok ⟨sUninit, none, [msgChainMissing], false⟩ :=
  query_before_ready_fails demoEnv sUninit "What is MT" rfl

/-- C2: when the extracted text is empty, `create_vector_store` fails
(returns `False`) and an `Uninitialized` orchestrator stays
`Uninitialized`: the call leaves the instance untouched and its
`vector_store` field still absent. -/
theorem build_empty_text_fails (env : Env) (s : PDFQASystem)
    (hvs : s.vector_store = none) (hext : env.readPdf s.pdf_path = .ok "") :
    create_vector_store env s = (s, false, []) ∧
    (create_vector_store env s).1.vector_store = none := by
  have hcvs : create_vector_store env s = (s, false, []) := by
    unfold create_vector_store extract_text_from_pdf
    rw [hext]
    simp [pyFalsyStr]
  exact ⟨hcvs, by rw [hcvs]; exact hvs⟩

/-- Witness for C2 at a concrete empty document. -/
theorem build_empty_text_fails_witness :
    create_vector_store emptyPdfEnv sUninit = (sUninit, false, []) ∧
    (create_vector_store emptyPdfEnv sUninit).1.vector_store = none :=
  build_empty_text_fails emptyPdfEnv sUninit rfl rfl

/-- C3 (intended behavior at the failing input): on an `IndexBuilt`
instance with no constructor credential and no environment credential,
`initialize_qa_chain` — with the evident `try:` restored at the source's
malformed `try` line — returns `False`, prints the missing-credential
message, and leaves the instance unchanged in `IndexBuilt`.  As written,
the source's `try` lacks its colon, so the class definition itself is
rejected and this method can never run. -/
theorem init_chain_missing_credential :
    initialize_qa_chain noKeyEnv sIndexBuilt =
      (sIndexBuilt, false, [msgErrorInitGroq msgKeyNotFound]) ∧
    sIndexBuilt.vector_store = some demoStore ∧
    sIndexBuilt.qa_chain = none := by
  exact ⟨rfl, rfl, rfl⟩

/-- C4: when PDF extraction raises, `extract_text_from_pdf` catches the
exception and returns `None` with the printed message; `create_vector_store`
then aborts before chunking, returns `False`, and an `Uninitialized`
orchestrator keeps its `vector_store` absent. -/
theorem extraction_failure_aborts_build (env : Env) (s : PDFQASystem)
    (e : String) (hvs : s.vector_store = none)
    (hext : env.readPdf s.pdf_path = .error e) :
    extract_text_from_pdf env s = (none, [msgErrorReadingPdf e]) ∧
    create_vector_store env s = (s, false, [msgErrorReadingPdf e]) ∧
    (create_vector_store env s).1.vector_store = none := by
  have hex : extract_text_from_pdf env s = (none, [msgErrorReadingPdf e]) := by
    unfold extract_text_from_pdf
    rw [hext]
  have hcvs : create_vector_store env s = (s, false, [msgErrorReadingPdf e]) := by
    unfold create_vector_store
    rw [hex]
    simp [pyFalsyStr]
  exact ⟨hex, hcvs, by rw [hcvs]; exact hvs⟩

/-- Witness for C4 at a concrete corrupt document. -/
theorem extraction_failure_aborts_build_witness :
    extract_text_from_pdf brokenPdfEnv sUninit =
      (none, [msgErrorReadingPdf "EOF marker not found"]) ∧
    create_vector_store brokenPdfEnv sUninit =
      (sUninit, false, [msgErrorReadingPdf "EOF marker not found"]) ∧
    (create_vector_store brokenPdfEnv sUninit).1.vector_store = none :=
  extraction_failure_aborts_build brokenPdfEnv sUninit "EOF marker not found" rfl rfl

/-- C5: the defaulted constructor stores `chunk_size = 1000` and
`chunk_overlap = 200`; a successfully initialized QA chain retrieves with
`k = 3`; and with no constructor credential the effective credential is
exactly the environment variable. -/
theorem default_configuration (p : String) (env : Env) (s : PDFQASystem) :
    (PDFQASystem.mkDefault p).chunk_size = 1000 ∧
    (PDFQASystem.mkDefault p).chunk_overlap = 200 ∧
    effective_api_key env (PDFQASystem.mkDefault p) = env.envGroqKey ∧
    ((initialize_qa_chain env s).2.1 = true →
      ∃ vs, s.vector_store = some vs ∧
        (initialize_qa_chain env s).1.qa_chain = some ⟨vs, 3, groqModelName⟩) := by
  refine ⟨rfl, rfl, rfl, ?_⟩
  intro hsucc
  rcases hvs : s.vector_store with _ | vs
  · simp [initialize_qa_chain, hvs] at hsucc
  · by_cases hb : pyFalsyStr (effective_api_key env s) = true
    · simp [initialize_qa_chain, hvs, hb] at hsucc
    · rcases hg : env.chatGroq ((effective_api_key env s).getD "") with e | u
      · simp [initialize_qa_chain, hvs, hb, hg] at hsucc
      · refine ⟨vs, rfl, ?_⟩
        simp [initialize_qa_chain, hvs, hb, hg, retrieverK]

/-- Witness for C5 at concrete inputs, with a successful initialization. -/
theorem default_configuration_witness :
    (PDFQASystem.mkDefault "doc.pdf").chunk_size = 1000 ∧
    (PDFQASystem.mkDefault "doc.pdf").chunk_overlap = 200 ∧
    effective_api_key demoEnv (PDFQASystem.mkDefault "doc.pdf") = demoEnv.envGroqKey ∧
    ((initialize_qa_chain demoEnv sIndexBuilt).2.1 = true →
      ∃ vs, sIndexBuilt.vector_store = some vs ∧
        (initialize_qa_chain demoEnv sIndexBuilt).1.qa_chain =
          some ⟨vs, 3, groqModelName⟩) :=
  default_configuration "doc.pdf" demoEnv sIndexBuilt

/-- C6: for all chunk parameters with `overlap < chunk_size` and every
text, chunking and then reassembling the chunks by removing the overlaps
reproduces the original text exactly (chunker modelled from the spec, the
actual splitter being an external library). -/
theorem chunk_reassemble_roundtrip (L O : Nat) (hOL : O < L) (t : String) :
    reassemble O (split_text L O t) = t := by
  unfold reassemble split_text
  rw [List.map_map]
  have hcomp : String.data ∘ String.mk = @id (List Char) := rfl
  rw [hcomp, List.map_id, dropOverlap_chunkList L O hOL t.data]

/-- Witness for C6 at concrete parameters and text. -/
theorem chunk_reassemble_roundtrip_witness :
    (2 : Nat) < 5 ∧
    reassemble 2 (split_text 5 2 "machine translation is neural") =
      "machine translation is neural" :=
  ⟨by decide, chunk_reassemble_roundtrip 5 2 (by decide) "machine translation is neural"⟩

/-- C7: on a `Ready` orchestrator, `query` returns the chain's textual
response verbatim when the chain call succeeds, and the explicit failure
indicator (`None` plus the printed reason) when it raises. -/
theorem query_ready_verbatim (env : Env) (s : PDFQASystem) (q : String)
    (c : QAChain) (hc : s.qa_chain = some c) :
    (∀ r, env.chainRun c q = .ok r →
      query env s q = .ok ⟨s, some r, [], true⟩) ∧
    (∀ e, env.chainRun c q = .error e →
      query env s q = .ok ⟨s, none, [msgErrorQuery e], true⟩) := by
  constructor
  · intro r hr
    unfold query pyTry
    rw [hc]
    simp [hr, Bind.bind, Except.bind, pure, Except.pure]
  · intro e he
    unfold query pyTry
    rw [hc]
    simp [he, Bind.bind, Except.bind]

/-- Witness for C7: a concrete `Ready` instance, one succeeding and one
raising chain call. -/
theorem query_ready_verbatim_witness :
    query demoEnv sReady "What is MT" =
      .ok ⟨sReady, some ("A:" ++ "What is MT"), [], true⟩ ∧
    query failingChainEnv sReady "What is MT" =
      .ok ⟨sReady, none, [msgErrorQuery "rate limit"], true⟩ :=
  ⟨(query_ready_verbatim demoEnv sReady "What is MT" demoChain rfl).1
      ("A:" ++ "What is MT") rfl,
   (query_ready_verbatim failingChainEnv sReady "What is MT" demoChain rfl).2
      "rate limit" rfl⟩

/-- Any sequence of `query` calls leaves the instance exactly as it was. -/
lemma runQueries_id (env : Env) : ∀ (qs : List String) (s : PDFQASystem),
    runQueries env s qs = s
  | [], _ => rfl
  | q :: qs, s => by
    obtain ⟨out, hok, hst⟩ := query_ok env s q
    simp only [runQueries, hok]
    rw [hst]
    exact runQueries_id env qs s

/-- C8: once `Ready`, no sequence of `query` calls (succeeding or failing)
ever reverts the orchestrator: the instance is unchanged, and its vector
store and QA chain fields remain set to their original values. -/
theorem ready_never_reverts (env : Env) (s : PDFQASystem) (qs : List String)
    (c : QAChain) (v : VectorStore)
    (hc : s.qa_chain = some c) (hv : s.vector_store = some v) :
    runQueries env s qs = s ∧
    (runQueries env s qs).qa_chain = some c ∧
    (runQueries env s qs).vector_store = some v := by
  have hid : runQueries env s qs = s := runQueries_id env qs s
  refine ⟨hid, ?_, ?_⟩
  · rw [hid, hc]
  · rw [hid, hv]

/-- Witness for C8: a concrete `Ready` instance and a concrete question
sequence, one of the questions failing in the chain. -/
theorem ready_never_reverts_witness :
    runQueries failingChainEnv sReady ["q1", "q2"] = sReady ∧
    (runQueries failingChainEnv sReady ["q1", "q2"]).qa_chain = some demoChain ∧
    (runQueries failingChainEnv sReady ["q1", "q2"]).vector_store = some demoStore :=
  ready_never_reverts failingChainEnv sReady ["q1", "q2"] demoChain demoStore rfl rfl

/-- C9: for every environment, state and question, `query` returns
normally — never an escaping exception — and its value is either `None` or
exactly the chain's successful answer. -/
theorem query_never_throws (env : Env) (s : PDFQASystem) (q : String) :
    ∃ out : QueryOutcome, query env s q = .ok out ∧
      (out.ret = none ∨
        ∃ c r, s.qa_chain = some c ∧ env.chainRun c q = .ok r ∧ out.ret = some r) := by
  unfold query
  match hc : s.qa_chain with
  | none => exact ⟨⟨s, none, [msgChainMissing], false⟩, rfl, Or.inl rfl⟩
  | some c =>
    unfold pyTry
    match hr : env.chainRun c q with
    | .ok r =>
      refine ⟨⟨s, some r, [], true⟩, ?_, Or.inr ⟨c, r, rfl, hr, rfl⟩⟩
      simp [hr, Bind.bind, Except.bind, pure, Except.pure]
    | .error e =>
      refine ⟨⟨s, none, [msgErrorQuery e], true⟩, ?_, Or.inl rfl⟩
      simp [hr, Bind.bind, Except.bind]

/-- C10: an explicitly passed empty-string credential is treated as
absent: the effective credential is the environment variable; when that is
unset or empty the initialization fails with the missing-key message and
the instance is unchanged; when it is non-empty the missing-key branch is
not taken. -/
theorem empty_key_falls_back (env : Env) (s : PDFQASystem) (vs : VectorStore)
    (hk : s.groq_api_key = some "") (hvs : s.vector_store = some vs) :
    effective_api_key env s = env.envGroqKey ∧
    (pyFalsyStr env.envGroqKey = true →
      initialize_qa_chain env s = (s, false, [msgErrorInitGroq msgKeyNotFound])) ∧
    (pyFalsyStr env.envGroqKey = false →
      pyFalsyStr (effective_api_key env s) = false) := by
  have heff : effective_api_key env s = env.envGroqKey := by
    unfold effective_api_key
    rw [hk]
    simp
  refine ⟨heff, ?_, ?_⟩
  · intro hfalsy
    simp only [initialize_qa_chain, hvs, heff]
    rw [if_pos hfalsy]
  · intro htruthy
    rw [heff]
    exact htruthy

/-- Witness for C10: empty constructor key, no environment key. -/
theorem empty_key_falls_back_witness :
    effective_api_key noKeyEnv sEmptyKey = noKeyEnv.envGroqKey ∧
    (pyFalsyStr noKeyEnv.envGroqKey = true →
      initialize_qa_chain noKeyEnv sEmptyKey =
        (sEmptyKey, false, [msgErrorInitGroq msgKeyNotFound])) ∧
    (pyFalsyStr noKeyEnv.envGroqKey = false →
      pyFalsyStr (effective_api_key noKeyEnv sEmptyKey) = false) :=
  empty_key_falls_back noKeyEnv sEmptyKey demoStore rfl rfl

end PdfQa
